import Mathlib

/-!
Verification of the Malxplain analysis-to-verdict pipeline.

This file gives a shallow embedding, in Lean 4, of the core modules of the
repository (static analysis, dynamic behavior scoring, feature engineering,
model persistence and inference, report assembly), and proves or refutes the
frozen specification claims about them.

Conventions of the embedding:
* Python dicts with a fixed set of optionally-present keys become structures
  whose fields are `Option`-typed; `d.get(k, v)` becomes `field.getD v`,
  `k in d` becomes `field.isSome`, and the truthiness of a retrieved value is
  spelled out (`Option.getD false`, `≠ []`, and so on).
* Python numbers in the pipeline are embedded as `ℚ` (CPython floats are
  rationals); the one information-theoretic function, Shannon entropy, is in
  addition idealized over `ℝ` since its floating-point computation has no
  exact rational counterpart.
* External libraries (`pefile`, `hashlib`, and the floating-point entropy
  routine feeding stored dictionary values) enter through an explicit
  environment of oracles, universally quantified in the theorems.
* Exceptions become `Option`/sum results: a Python function that can raise is
  embedded as a function into `Option`, and a `try/except` around it becomes a
  `match` on that option.
* Byte strings are `List (Fin 256)`.
-/

abbrev Byte := Fin 256

/-! ### Character/string helpers

CPython's `pat in s` substring test, `str.lower()` and `str.endswith` are
embedded as structural recursions over the underlying character lists (the
relevant strings in this code base are ASCII, where `Char.toLower` agrees
with `str.lower`). -/

/-- Does the second list start with the first one? -/
def charsStartWith : List Char → List Char → Bool
  | [], _ => true
  | _ :: _, [] => false
  | p :: ps, c :: cs => p == c && charsStartWith ps cs

/-- Does `hay` contain `pat` as a contiguous sublist? -/
def charsContain (hay pat : List Char) : Bool :=
  if charsStartWith pat hay then true
  else
    match hay with
    | [] => false
    | _ :: rest => charsContain rest pat

/-- Python `pat in s` (substring containment). -/
def strContains (s pat : String) : Bool := charsContain s.data pat.data

/-- Python `s.lower()` (ASCII strings). -/
def lowerStr (s : String) : String := ⟨s.data.map Char.toLower⟩

/-- Python `s.endswith(suffix)`. -/
def strEndsWith (s suffix : String) : Bool :=
  charsStartWith suffix.data.reverse s.data.reverse

/-! ## `modules/static_analysis.py` — `StaticAnalyzer` -/

/-- `StaticAnalyzer.suspicious_strings`: the fixed suspicious token
dictionary used to flag extracted strings. -/
def suspicious_strings : List String :=
  ["CreateProcess", "WriteProcessMemory", "VirtualAlloc", "GetProcAddress",
   "LoadLibrary", "RegCreateKey", "RegSetValue", "InternetOpen",
   "HttpSendRequest", "CreateFile", "WriteFile", "DeleteFile",
   "CreateService", "StartService", "cmd.exe", "powershell",
   "whoami", "net user", "taskkill", "schtasks"]

/-- A byte matching the regex class `[ -~]` (printable ASCII). -/
def printableByte (b : Byte) : Bool := 32 ≤ b.val && b.val ≤ 126

def byteChar (b : Byte) : Char := Char.ofNat b.val

/-- Maximal runs of `≥ 4` printable ASCII bytes, in file order: the matches of
`re.findall(b'[ -~]{4,}', data)`.  `acc` holds the current run, reversed. -/
def asciiRuns : List Byte → List Char → List (List Char)
  | [], acc => if 4 ≤ acc.length then [acc.reverse] else []
  | b :: rest, acc =>
    if printableByte b then asciiRuns rest (byteChar b :: acc)
    else if 4 ≤ acc.length then acc.reverse :: asciiRuns rest []
    else asciiRuns rest []

/-- Number of consecutive `(printable, NUL)` byte pairs at the head of the
list: the greedy repetition count of `(?:[ -~]\x00)` at this position. -/
def widePairCount : List Byte → ℕ
  | a :: z :: r => if printableByte a && z.val == 0 then widePairCount r + 1 else 0
  | _ => 0

/-- The characters of a matched run of `(printable, NUL)` pairs, i.e. its
UTF-16LE decoding: every even-indexed byte. -/
def evenBytesChars : List Byte → List Char
  | a :: _ :: r => byteChar a :: evenBytesChars r
  | [a] => [byteChar a]
  | [] => []

/-- The matches of `re.findall(b'(?:[ -~]\x00){4,}', data)`, decoded: the
regex engine tries a greedy match of pairs at each position, succeeds when at
least 4 pairs match (consuming them), and otherwise advances one byte. -/
def wideRuns (l : List Byte) : List (List Char) :=
  match l with
  | [] => []
  | b :: rest =>
    let k := widePairCount (b :: rest)
    if 4 ≤ k then
      evenBytesChars (List.take (2 * k) (b :: rest)) :: wideRuns (List.drop (2 * k) (b :: rest))
    else wideRuns rest
termination_by l.length
decreasing_by
  · simp only [List.length_drop, List.length_cons]
    omega
  · simp

/-- The `strings` sub-dictionary produced by `_extract_strings`. -/
structure StringsInfo where
  total_strings : Option ℚ
  strings : List String
  suspicious_strings : Option (List String)
deriving DecidableEq

/-- `StaticAnalyzer._extract_strings`: ASCII and wide strings (each category
capped at 100), with the suspicious subset flagged by the token dictionary. -/
def extract_strings (data : List Byte) : StringsInfo :=
  let found : List String :=
    ((asciiRuns data []).take 100).map (fun cs => ⟨cs⟩)
      ++ ((wideRuns data).take 100).map (fun cs => ⟨cs⟩)
  { total_strings := some (found.length : ℚ)
    strings := found
    suspicious_strings :=
      some (found.filter (fun s => suspicious_strings.any (fun sus => strContains s sus))) }

/-- `file_info` sub-dictionary (`_get_file_info`). -/
structure FileInfo where
  filename : String
  size : Option ℚ
  md5 : String
  sha1 : String
  sha256 : String
deriving DecidableEq

/-- The part of a parsed `pefile.PE` object that this code base reads.
`sections` are the section names with trailing NULs already stripped;
`dll_imports` is `DIRECTORY_ENTRY_IMPORT` (absent when the attribute is
missing), each import name being `None` or a string; `version_info` stands for
the `VS_VERSIONINFO` string-table entries. -/
structure PEFile where
  machine : ℕ
  time_date_stamp : ℕ
  number_of_sections : ℕ
  size_of_optional_header : ℕ
  characteristics : ℕ
  address_of_entry_point : ℕ
  image_base : ℕ
  section_alignment : ℕ
  file_alignment : ℕ
  subsystem : ℕ
  sections : List String
  dll_imports : Option (List (String × List (Option String)))
  version_info : Option (List (String × String))

/-- The `pe_headers` sub-dictionary (`_extract_pe_headers`).  Fields that the
source stores as hex strings (`hex(...)`) are embedded by their numeric value:
the only consumer parses them back with `int(·, 16)`, which round-trips. -/
structure PEHeaders where
  machine : Option ℚ
  timestamp : Option ℚ
  number_of_sections : Option ℚ
  size_of_optional_header : Option ℚ
  characteristics : Option ℚ
  entry_point : Option ℚ
  image_base : Option ℚ
  section_alignment : Option ℚ
  file_alignment : Option ℚ
  subsystem : Option ℚ
deriving DecidableEq

/-- `StaticAnalyzer._extract_pe_headers`. -/
def extract_pe_headers (pe : PEFile) : PEHeaders :=
  { machine := some (pe.machine : ℚ)
    timestamp := some (pe.time_date_stamp : ℚ)
    number_of_sections := some (pe.number_of_sections : ℚ)
    size_of_optional_header := some (pe.size_of_optional_header : ℚ)
    characteristics := some (pe.characteristics : ℚ)
    entry_point := some (pe.address_of_entry_point : ℚ)
    image_base := some (pe.image_base : ℚ)
    section_alignment := some (pe.section_alignment : ℚ)
    file_alignment := some (pe.file_alignment : ℚ)
    subsystem := some (pe.subsystem : ℚ) }

/-- The empty dict `{}` stored under `pe_headers` in degraded mode. -/
def emptyPEHeaders : PEHeaders :=
  { machine := none, timestamp := none, number_of_sections := none
    size_of_optional_header := none, characteristics := none, entry_point := none
    image_base := none, section_alignment := none, file_alignment := none
    subsystem := none }

/-- `StaticAnalyzer._extract_imports`: library name → imported symbol names
(skipping ordinal-only imports whose `imp.name` is `None`). -/
def extract_imports (pe : PEFile) : List (String × List String) :=
  match pe.dll_imports with
  | none => []
  | some entries => entries.map (fun e => (e.1, e.2.filterMap id))

/-- `StaticAnalyzer._extract_metadata`. -/
def extract_metadata (pe : PEFile) : List (String × String) :=
  pe.version_info.getD []

/-- The `suspicious_indicators` sub-dictionary.  The last four keys are only
written by the basic (degraded) path; `suspicious_extension` is only written
when it would be `True`. -/
structure SuspiciousIndicators where
  packed : Option Bool
  unusual_sections : Option (List String)
  suspicious_imports : Option (List String)
  high_entropy : Option Bool
  suspicious_strings_found : Option Bool
  large_file : Option Bool
  analysis_type : Option String
  suspicious_extension : Option Bool
deriving DecidableEq

/-- Known-packer section-name substrings used by `_check_if_packed`. -/
def packer_sections : List String := [".UPX", ".packed", ".compressed", "UPX0", "UPX1"]

/-- `StaticAnalyzer._check_if_packed`. -/
def check_if_packed (pe : PEFile) : Bool :=
  pe.sections.any (fun name => packer_sections.any (fun sus => strContains name sus))

/-- Common section names accepted by `_check_unusual_sections`. -/
def common_sections : List String := [".text", ".data", ".rdata", ".bss", ".rsrc", ".reloc"]

/-- `StaticAnalyzer._check_unusual_sections`. -/
def check_unusual_sections (pe : PEFile) : List String :=
  pe.sections.filter (fun name => !(common_sections.contains name))

/-- The suspicious API substrings of `_check_suspicious_imports`. -/
def suspicious_apis : List String :=
  ["CreateProcess", "WriteProcessMemory", "VirtualAlloc", "GetProcAddress",
   "SetWindowsHookEx", "CreateRemoteThread", "OpenProcess", "RegCreateKey"]

/-- `StaticAnalyzer._check_suspicious_imports`: every named import containing
one of the suspicious API substrings, in import-table order. -/
def check_suspicious_imports (pe : PEFile) : List String :=
  match pe.dll_imports with
  | none => []
  | some entries =>
    entries.flatMap (fun e =>
      (e.2.filterMap id).filter (fun api => suspicious_apis.any (fun sus => strContains api sus)))

/-- Risky filename extensions checked by `_check_basic_suspicious_indicators`. -/
def suspicious_extensions : List String :=
  [".scr", ".pif", ".com", ".bat", ".cmd", ".vbs", ".js"]

/-- `StaticAnalyzer._calculate_entropy`, idealized over `ℝ`: Shannon entropy
of the byte-value histogram (`Counter(data)` iterates over the distinct bytes
present, i.e. `data.toFinset`), accumulating `entropy -= p * log2 p`. -/
noncomputable def calculate_entropy (data : List Byte) : ℝ :=
  if data.length = 0 then 0
  else ∑ b ∈ data.toFinset,
    -(((data.count b : ℝ) / (data.length : ℝ)) *
      Real.logb 2 ((data.count b : ℝ) / (data.length : ℝ)))

/-- The full static analysis dictionary assembled by `analyze_file` (and, for
the feature-engineering and report stages, any dictionary shaped like it:
absent keys are `none`). -/
structure StaticAnalysis where
  file_info : Option FileInfo
  strings : Option StringsInfo
  entropy : Option ℚ
  pe_headers : Option PEHeaders
  imports : Option (List (String × List String))
  metadata : Option (List (String × String))
  suspicious_indicators : Option SuspiciousIndicators
  analysis_note : Option String
deriving DecidableEq

/-- Result of attempting `pefile.PE(filepath)`. -/
inductive PEParse where
  /-- parse succeeded -/
  | ok (pe : PEFile)
  /-- `pefile.PEFormatError` -/
  | formatError
  /-- any other exception, with its message -/
  | otherError (msg : String)

/-- The external collaborators of `StaticAnalyzer`: the `pefile` parser, the
`hashlib` digests, and the floating-point entropy routine whose (rational)
result is stored in the dictionaries.  Theorems quantify over this
environment. -/
structure ExtEnv where
  peParse : List Byte → PEParse
  md5 : List Byte → String
  sha1 : List Byte → String
  sha256 : List Byte → String
  entropyF : List Byte → ℚ

/-- `StaticAnalyzer._get_file_info` (the `filename` argument is
`os.path.basename(filepath)`). -/
def get_file_info (env : ExtEnv) (filename : String) (data : List Byte) : FileInfo :=
  { filename := filename
    size := some (data.length : ℚ)
    md5 := env.md5 data
    sha1 := env.sha1 data
    sha256 := env.sha256 data }

/-- `StaticAnalyzer._check_suspicious_indicators` (full PE mode; the
`high_entropy` flag recomputes the entropy of the file). -/
def check_suspicious_indicators (env : ExtEnv) (pe : PEFile) (data : List Byte) :
    SuspiciousIndicators :=
  { packed := some (check_if_packed pe)
    unusual_sections := some (check_unusual_sections pe)
    suspicious_imports := some (check_suspicious_imports pe)
    high_entropy := some (decide (7 < env.entropyF data))
    suspicious_strings_found := none
    large_file := none
    analysis_type := none
    suspicious_extension := none }

/-- `StaticAnalyzer._check_basic_suspicious_indicators` (degraded mode). -/
def check_basic_suspicious_indicators (filename : String) (data : List Byte)
    (strings_info : StringsInfo) (entropyV : ℚ) : SuspiciousIndicators :=
  { packed := some false
    unusual_sections := some []
    suspicious_imports := some []
    high_entropy := some (decide (7 < entropyV))
    suspicious_strings_found :=
      some (decide (0 < (strings_info.suspicious_strings.getD []).length))
    large_file := some (decide (10 * 1024 * 1024 < data.length))
    analysis_type := some "basic"
    suspicious_extension :=
      if suspicious_extensions.any (fun ext => strEndsWith (lowerStr filename) ext)
      then some true else none }

/-- Outcome of `StaticAnalyzer.analyze_file`: either the `{'error': ...}`
dictionary or a full analysis dictionary. -/
inductive StaticOutcome where
  | error (msg : String)
  | result (r : StaticAnalysis)

/-- `StaticAnalyzer.analyze_file`.  `fileExists` models `os.path.exists`;
`data` is the file content; `filename` its basename.  The trailing
best-effort JSON dump has no effect on the returned value and is omitted. -/
def analyze_file (env : ExtEnv) (filename : String) (data : List Byte)
    (fileExists : Bool) : StaticOutcome :=
  if !fileExists then .error "الملف غير موجود"
  else if data.length = 0 then .error "الملف فارغ"
  else
    let file_info := get_file_info env filename data
    let strings_info := extract_strings data
    let entropyV := env.entropyF data
    match env.peParse data with
    | .ok pe =>
      .result
        { file_info := some file_info
          strings := some strings_info
          entropy := some entropyV
          pe_headers := some (extract_pe_headers pe)
          imports := some (extract_imports pe)
          metadata := some (extract_metadata pe)
          suspicious_indicators := some (check_suspicious_indicators env pe data)
          analysis_note := none }
    | .formatError =>
      .result
        { file_info := some file_info
          strings := some strings_info
          entropy := some entropyV
          pe_headers := some emptyPEHeaders
          imports := some []
          metadata := some []
          suspicious_indicators :=
            some (check_basic_suspicious_indicators filename data strings_info entropyV)
          analysis_note := some "الملف ليس من نوع PE (Windows Executable)" }
    | .otherError msg =>
      .result
        { file_info := some file_info
          strings := some strings_info
          entropy := some entropyV
          pe_headers := some emptyPEHeaders
          imports := some []
          metadata := some []
          suspicious_indicators :=
            some (check_basic_suspicious_indicators filename data strings_info entropyV)
          analysis_note :=
            some (if s!"خطأ في قراءة الملف: {msg}" = "" then "تم إجراء تحليل أساسي فقط"
                  else s!"خطأ في قراءة الملف: {msg}") }

/-! ## `modules/dynamic_analysis.py` — `DynamicAnalyzer` -/

/-- An element of `http_requests`: a dict read via `req.get('url', '')`. -/
structure HttpRequest where
  url : Option String
deriving DecidableEq

/-- The `network_activity` sub-dictionary.  TCP-connection entries are dicts
whose contents this code never reads (only list lengths), embedded as `Unit`. -/
structure NetworkActivity where
  tcp_connections : Option (List Unit)
  dns_requests : Option (List String)
  http_requests : Option (List HttpRequest)
deriving DecidableEq

/-- The `registry_changes` sub-dictionary.  `values_set` entries are dicts
whose contents are never read, embedded as `Unit`. -/
structure RegistryChanges where
  keys_created : Option (List String)
  values_set : Option (List Unit)
  keys_deleted : Option (List String)
deriving DecidableEq

/-- The `file_operations` sub-dictionary. -/
structure FileOperations where
  files_created : Option (List String)
  files_deleted : Option (List String)
  files_modified : Option (List String)
deriving DecidableEq

/-- An element of `processes_created`: a dict read via `proc.get('name', '')`. -/
structure ProcessEntry where
  name : Option String
deriving DecidableEq

/-- The `process_creation` sub-dictionary. -/
structure ProcessCreation where
  processes_created : Option (List ProcessEntry)
  dlls_loaded : Option (List String)
deriving DecidableEq

/-- A behavior record: the dictionary passed to `_calculate_behavior_score`
and stored under the `behavior` key of a dynamic-analysis result. -/
structure Behavior where
  network_activity : Option NetworkActivity
  registry_changes : Option RegistryChanges
  file_operations : Option FileOperations
  process_creation : Option ProcessCreation
deriving DecidableEq

/-- `DynamicAnalyzer._calculate_behavior_score`: weighted event counts with
keyword bonuses, capped at 100. -/
def calculate_behavior_score (behavior : Behavior) : ℤ :=
  let netScore : ℤ :=
    match behavior.network_activity with
    | some net =>
      2 * ((net.tcp_connections.getD []).length : ℤ)
        + 3 * ((net.http_requests.getD []).length : ℤ)
        + ((net.http_requests.getD []).map (fun req =>
            if strContains (lowerStr (req.url.getD "")) "malicious" then (10 : ℤ) else 0)).sum
    | none => 0
  let regScore : ℤ :=
    match behavior.registry_changes with
    | some reg =>
      1 * ((reg.keys_created.getD []).length : ℤ)
        + 2 * ((reg.values_set.getD []).length : ℤ)
        + ((reg.keys_created.getD []).map (fun key =>
            if strContains key "Run" then (15 : ℤ) else 0)).sum
    | none => 0
  let fileScore : ℤ :=
    match behavior.file_operations with
    | some files =>
      1 * ((files.files_created.getD []).length : ℤ)
        + 3 * ((files.files_deleted.getD []).length : ℤ)
        + 2 * ((files.files_modified.getD []).length : ℤ)
    | none => 0
  let procScore : ℤ :=
    match behavior.process_creation with
    | some procs =>
      ((procs.processes_created.getD []).map (fun proc =>
          (if strContains (proc.name.getD "") "cmd.exe" then (5 : ℤ) else 0)
            + (if strContains (proc.name.getD "") "powershell" then (7 : ℤ) else 0))).sum
    | none => 0
  min (netScore + regScore + fileScore + procScore) 100

/-- A dynamic-analysis result dictionary, as read by the feature-engineering
and report stages (`behavior_score` and `behavior` are the only keys they
access; a `{'error': ...}` result has both `none`). -/
structure DynamicAnalysis where
  behavior_score : Option ℚ
  behavior : Option Behavior
deriving DecidableEq

/-! ## `modules/feature_engineering.py` — `FeatureEngineer` -/

/-- A feature mapping: an insertion-ordered dictionary of named numeric
values.  The keys inserted by `extract_features` are pairwise distinct, so the
dictionary is embedded as the association list in insertion order. -/
abbrev Features := List (String × ℚ)

/-- The substrings flagging a suspicious import in
`_extract_static_features`. -/
def suspicious_import_tokens : List String := ["process", "memory", "registry", "internet"]

/-- `FeatureEngineer._extract_static_features`. -/
def extract_static_features (static_analysis : StaticAnalysis) : Features :=
  (match static_analysis.file_info with
   | some fi => [("file_size", fi.size.getD 0)]
   | none => [])
  ++ (match static_analysis.pe_headers with
   | some headers =>
      [("number_of_sections", headers.number_of_sections.getD 0),
       ("size_of_optional_header", headers.size_of_optional_header.getD 0),
       ("entry_point", headers.entry_point.getD 0)]
   | none => [])
  ++ (match static_analysis.imports with
   | some imports =>
      [("number_of_imports", (imports.length : ℚ)),
       ("number_of_imported_dlls", (imports.length : ℚ)),
       ("suspicious_imports_count",
        (((imports.flatMap Prod.snd).filter (fun func =>
            suspicious_import_tokens.any (fun sus => strContains (lowerStr func) sus))).length : ℚ))]
   | none => [])
  ++ (match static_analysis.strings with
   | some strings_info =>
      [("total_strings", strings_info.total_strings.getD 0),
       ("suspicious_strings_count", ((strings_info.suspicious_strings.getD []).length : ℚ))]
   | none => [])
  ++ [("entropy", static_analysis.entropy.getD 0)]
  ++ (match static_analysis.suspicious_indicators with
   | some indicators =>
      [("is_packed", if indicators.packed.getD false then 1 else 0),
       ("unusual_sections_count", ((indicators.unusual_sections.getD []).length : ℚ)),
       ("suspicious_api_count", ((indicators.suspicious_imports.getD []).length : ℚ)),
       ("high_entropy", if indicators.high_entropy.getD false then 1 else 0)]
   | none => [])

/-- `FeatureEngineer._extract_dynamic_features`. -/
def extract_dynamic_features (dynamic_analysis : DynamicAnalysis) : Features :=
  (match dynamic_analysis.behavior_score with
   | some v => [("behavior_score", v)]
   | none => [])
  ++ (match dynamic_analysis.behavior with
   | some behavior =>
      (match behavior.network_activity with
       | some net =>
          [("tcp_connections_count", ((net.tcp_connections.getD []).length : ℚ)),
           ("dns_requests_count", ((net.dns_requests.getD []).length : ℚ)),
           ("http_requests_count", ((net.http_requests.getD []).length : ℚ))]
       | none => [])
      ++ (match behavior.registry_changes with
       | some reg =>
          [("registry_keys_created", ((reg.keys_created.getD []).length : ℚ)),
           ("registry_values_set", ((reg.values_set.getD []).length : ℚ)),
           ("registry_keys_deleted", ((reg.keys_deleted.getD []).length : ℚ))]
       | none => [])
      ++ (match behavior.file_operations with
       | some files =>
          [("files_created_count", ((files.files_created.getD []).length : ℚ)),
           ("files_deleted_count", ((files.files_deleted.getD []).length : ℚ)),
           ("files_modified_count", ((files.files_modified.getD []).length : ℚ))]
       | none => [])
      ++ (match behavior.process_creation with
       | some procs =>
          [("processes_created_count", ((procs.processes_created.getD []).length : ℚ)),
           ("dlls_loaded_count", ((procs.dlls_loaded.getD []).length : ℚ))]
       | none => [])
   | none => [])

/-- `FeatureEngineer.extract_features`.  The dynamic argument is `none` when
the dynamic-analysis dictionary is empty/absent (falsy), in which case only
static features are produced.  The static and dynamic key sets are disjoint,
so `dict.update` is concatenation. -/
def extract_features (static_analysis : StaticAnalysis)
    (dynamic_analysis : Option DynamicAnalysis) : Features :=
  extract_static_features static_analysis
    ++ (match dynamic_analysis with
        | some d => extract_dynamic_features d
        | none => [])

/-! ## `modules/ml_models.py` — `MLPredictor` state and persistence -/

/-- A fitted `StandardScaler`: per-feature `(mean, scale)` statistics.
`transform` raises on a feature-count mismatch, hence the length guard. -/
abbrev ScalerParams := List (ℚ × ℚ)

/-- A fitted classifier object as the inference path uses it: its type name,
its `predict` on one row (`None` result standing for an internal exception;
the value is `predict(X)[0]`), its `predict_proba` row when the attribute
exists, and its `feature_importances_` attribute when it exists. -/
structure Model where
  mtype : String
  predict : List ℚ → Option ℚ
  predict_proba : Option (List ℚ → Option (List ℚ))
  feature_importances : Option (List ℚ)

/-- The `MLPredictor` fields the inference path reads (the candidate-model
table and training-only fields are not consulted after training). -/
structure MLPredictorState where
  best_model : Option Model
  best_model_name : Option String

/-- `MLPredictor.__init__` state. -/
def mlPredictorInit : MLPredictorState := { best_model := none, best_model_name := none }

/-- The persisted bundle written by `save_best_model`: exactly the keys
`model`, `model_name`, `model_type` of the dumped dictionary. -/
structure ModelArtifact where
  model : Model
  model_name : Option String
  model_type : String

/-- `MLPredictor.save_best_model`: dumps the bundle when a best model exists,
otherwise only prints and saves nothing. -/
def save_best_model (p : MLPredictorState) : Option ModelArtifact :=
  match p.best_model with
  | some m => some { model := m, model_name := p.best_model_name, model_type := m.mtype }
  | none => none

/-- `MLPredictor.load_model` applied to a successfully read artifact: sets
`best_model` and `best_model_name` from the bundle. -/
def load_model (p : MLPredictorState) (a : ModelArtifact) : MLPredictorState :=
  { p with best_model := some a.model, best_model_name := a.model_name }

/-! ## `modules/feature_engineering.py` — single-sample processing -/

/-- The `FeatureEngineer` state used at inference time: the `StandardScaler`
(`none` when never fitted — its `transform` then raises `NotFittedError`) and
the persisted selection mask `selected_features`. -/
structure FeatureEngineerState where
  scaler : Option ScalerParams
  selected_features : Option (List Bool)

/-- `FeatureEngineer.__init__` state: unfitted scaler, no selection mask. -/
def featureEngineerInit : FeatureEngineerState :=
  { scaler := none, selected_features := none }

/-- `StandardScaler.transform` on one row: requires a fitted scaler and a
matching feature count, standardizes each field. -/
def scaler_transform (scaler : Option ScalerParams) (v : List ℚ) : Option (List ℚ) :=
  match scaler with
  | none => none
  | some params =>
    if params.length = v.length
    then some ((v.zip params).map (fun xp => (xp.1 - xp.2.1) / xp.2.2))
    else none

/-- Boolean-mask column selection `df_scaled[:, mask]`. -/
def apply_mask (v : List ℚ) (mask : List Bool) : List ℚ :=
  ((v.zip mask).filter (fun xb => xb.2)).map Prod.fst

/-- `FeatureEngineer.process_single_sample`: one-row DataFrame of the feature
values (in dictionary order), scaled, then selected when a mask was fitted.
`none` is any raised exception (unfitted scaler, shape mismatch). -/
def process_single_sample (fe : FeatureEngineerState) (features : Features) :
    Option (List ℚ) :=
  let v := features.map Prod.snd
  match scaler_transform fe.scaler v with
  | none => none
  | some scaled =>
    match fe.selected_features with
    | none => some scaled
    | some mask =>
      if mask.length = scaled.length then some (apply_mask scaled mask) else none

/-! ## `modules/prediction_engine.py` — `PredictionEngine` -/

/-- The result dictionary of `PredictionEngine._make_prediction`.  The success
path has no `error` key and the failure path no `prediction_score` key; these
are `none` respectively. -/
structure PredictionResult where
  prediction : String
  confidence : ℚ
  prediction_score : Option ℚ
  model_used : String
  top_features : Features
  error : Option String
deriving DecidableEq

/-- Python `round(x, 4)` on the rational value of a float.  (CPython rounds
half to even in binary; the discrepancy is confined to exact half-ulp ties,
which no claim exercises.) -/
def round4 (q : ℚ) : ℚ := ((round (q * 10000) : ℤ) : ℚ) / 10000

/-- `PredictionEngine._get_top_features`: when the model exposes
`feature_importances_`, the five most important feature indices (stable
descending sort, as `sorted(..., reverse=True)`) mapped back to the original
names and values; otherwise the first five features. -/
def get_top_features (mp : MLPredictorState) (original_features : Features) : Features :=
  match mp.best_model with
  | some m =>
    match m.feature_importances with
    | some importances =>
      let feature_names := original_features.map Prod.fst
      let top_indices :=
        ((List.range importances.length).mergeSort
          (fun i j => importances.getD j 0 ≤ importances.getD i 0)).take 5
      top_indices.filterMap (fun idx =>
        if idx < feature_names.length then
          match feature_names.getD idx "" , original_features.lookup (feature_names.getD idx "") with
          | name, some value => some (name, value)
          | _, none => none
        else none)
    | none => original_features.take 5
  | none => original_features.take 5

/-- The steps of `_make_prediction` that the enclosing `try` guards:
feature processing, model lookup, and `predict`.  `none` is a raised
exception. -/
def make_prediction_steps (fe : FeatureEngineerState) (mp : MLPredictorState)
    (features : Features) : Option (List ℚ × Model × ℚ) := do
  let processed ← process_single_sample fe features
  let m ← mp.best_model
  let pred ← m.predict processed
  pure (processed, m, pred)

/-- The failure dictionary returned by the `except` branch of
`_make_prediction` (the interpolated exception text is abstracted). -/
def prediction_failure : PredictionResult :=
  { prediction := "unknown"
    confidence := 0
    prediction_score := none
    model_used := "none"
    top_features := []
    error := some "Prediction failed" }

/-- `PredictionEngine._make_prediction`. -/
def make_prediction (fe : FeatureEngineerState) (mp : MLPredictorState)
    (features : Features) : PredictionResult :=
  match make_prediction_steps fe mp features with
  | none => prediction_failure
  | some (processed, m, pred) =>
    let confidence : ℚ :=
      match m.predict_proba with
      | some proba =>
        match proba processed with
        | some probabilities =>
          match probabilities.max? with
          | some c => c
          | none => 1 / 2
        | none => 1 / 2
      | none => 1 / 2
    { prediction := if pred = 1 then "malicious" else "benign"
      confidence := round4 confidence
      prediction_score := some pred
      model_used :=
        match mp.best_model_name with
        | some s => if s = "" then "unknown" else s
        | none => "unknown"
      top_features := get_top_features mp features
      error := none }

/-- The `overall_assessment` dictionary of `_generate_assessment` (its
initial `'Unknown'` risk level is always overwritten; the `except` branch is
unreachable in this total embedding). -/
structure Assessment where
  risk_level : String
  key_indicators : List String
  recommendations : List String
deriving DecidableEq

/-- `PredictionEngine._generate_assessment`.  Decimal literals (`0.8`, `0.6`)
are taken at their decimal value. -/
def generate_assessment (static_result : StaticAnalysis) (dynamic_result : DynamicAnalysis)
    (prediction_result : PredictionResult) : Assessment :=
  let risk_level : String :=
    if prediction_result.prediction = "malicious" then
      if 8 / 10 < prediction_result.confidence then "HIGH"
      else if 6 / 10 < prediction_result.confidence then "MEDIUM"
      else "LOW"
    else "SAFE"
  let indicators : List String :=
    (match static_result.suspicious_indicators with
     | some si =>
        (if si.packed.getD false then ["File appears to be packed"] else [])
        ++ (if si.high_entropy.getD false then
              ["High entropy detected (possible encryption)"] else [])
        ++ (if (si.suspicious_imports.getD []) ≠ [] then
              [s!"Suspicious API imports: {(si.suspicious_imports.getD []).length}"] else [])
     | none => [])
    ++ (match dynamic_result.behavior_score with
        | some score => if 50 < score then [s!"High behavior score: {score}"] else []
        | none => [])
    ++ (match static_result.strings with
        | some strings_info =>
          if (strings_info.suspicious_strings.getD []) ≠ [] then
            [s!"Suspicious strings found: {(strings_info.suspicious_strings.getD []).length}"]
          else []
        | none => [])
  let recommendations : List String :=
    if risk_level = "HIGH" then
      ["Do not execute this file",
       "Quarantine immediately",
       "Run additional scans with updated antivirus"]
    else if risk_level = "MEDIUM" then
      ["Exercise extreme caution",
       "Scan with multiple antivirus engines",
       "Consider sandbox analysis"]
    else if risk_level = "LOW" then
      ["Monitor file behavior if executed",
       "Verify file source and authenticity"]
    else ["File appears safe, but remain vigilant"]
  { risk_level := risk_level
    key_indicators := indicators
    recommendations := recommendations }

/-! ## Spec-side characterizations used by amended claims -/

/-- Characterization (for the amended C1): the feature keys contributed by a
static-analysis dictionary are exactly those of its present sections. -/
def static_feature_keys (s : StaticAnalysis) : List String :=
  (if s.file_info.isSome then ["file_size"] else [])
  ++ (if s.pe_headers.isSome then
        ["number_of_sections", "size_of_optional_header", "entry_point"] else [])
  ++ (if s.imports.isSome then
        ["number_of_imports", "number_of_imported_dlls", "suspicious_imports_count"] else [])
  ++ (if s.strings.isSome then ["total_strings", "suspicious_strings_count"] else [])
  ++ ["entropy"]
  ++ (if s.suspicious_indicators.isSome then
        ["is_packed", "unusual_sections_count", "suspicious_api_count", "high_entropy"] else [])

/-- Characterization (for the amended C1): the feature keys contributed by a
dynamic-analysis dictionary are exactly those of its present sections. -/
def dynamic_feature_keys (d : Option DynamicAnalysis) : List String :=
  match d with
  | none => []
  | some dd =>
    (if dd.behavior_score.isSome then ["behavior_score"] else [])
    ++ (match dd.behavior with
        | some b =>
          (if b.network_activity.isSome then
             ["tcp_connections_count", "dns_requests_count", "http_requests_count"] else [])
          ++ (if b.registry_changes.isSome then
                ["registry_keys_created", "registry_values_set", "registry_keys_deleted"] else [])
          ++ (if b.file_operations.isSome then
                ["files_created_count", "files_deleted_count", "files_modified_count"] else [])
          ++ (if b.process_creation.isSome then
                ["processes_created_count", "dlls_loaded_count"] else [])
        | none => [])

/-- Characterization (for the amended C5): the only strings
`_generate_assessment` ever places in `key_indicators` — none of them a
persistence indicator. -/
def assessment_indicator_forms (static_result : StaticAnalysis)
    (dynamic_result : DynamicAnalysis) : List String :=
  let importCount :=
    (((static_result.suspicious_indicators.map
        (fun si => si.suspicious_imports.getD [])).getD []).length)
  let score := dynamic_result.behavior_score.getD 0
  let stringCount :=
    (((static_result.strings.map
        (fun si => si.suspicious_strings.getD [])).getD []).length)
  ["File appears to be packed",
   "High entropy detected (possible encryption)",
   s!"Suspicious API imports: {importCount}",
   s!"High behavior score: {score}",
   s!"Suspicious strings found: {stringCount}"]

/-! ## Theorems -/

/-- The risk level computed by `_generate_assessment` as a function of the
prediction result alone. -/
lemma generate_assessment_risk_level (s : StaticAnalysis) (d : DynamicAnalysis)
    (p : PredictionResult) :
    (generate_assessment s d p).risk_level =
      (if p.prediction = "malicious" then
        if 8 / 10 < p.confidence then "HIGH"
        else if 6 / 10 < p.confidence then "MEDIUM"
        else "LOW"
      else "SAFE") := rfl

/-- C6: for every prediction result, `_generate_assessment` derives the tier
HIGH when the label is malicious with confidence above 0.8, MEDIUM when
malicious with confidence above 0.6 (but not above 0.8), LOW when malicious
otherwise, and SAFE when the label is not malicious. -/
theorem c6_risk_tier_mapping (s : StaticAnalysis) (d : DynamicAnalysis)
    (p : PredictionResult) :
    (p.prediction = "malicious" →
      (8 / 10 < p.confidence → (generate_assessment s d p).risk_level = "HIGH") ∧
      (6 / 10 < p.confidence → p.confidence ≤ 8 / 10 →
        (generate_assessment s d p).risk_level = "MEDIUM") ∧
      (p.confidence ≤ 6 / 10 → (generate_assessment s d p).risk_level = "LOW")) ∧
    (p.prediction ≠ "malicious" → (generate_assessment s d p).risk_level = "SAFE") := by
  rw [generate_assessment_risk_level]
  constructor
  · intro hm
    refine ⟨fun h8 => ?_, fun h6 h8 => ?_, fun h6 => ?_⟩
    · rw [if_pos hm, if_pos h8]
    · rw [if_pos hm, if_neg (not_lt.mpr h8), if_pos h6]
    · rw [if_pos hm, if_neg (not_lt.mpr (h6.trans (by norm_num))),
        if_neg (not_lt.mpr h6)]
  · intro hm
    rw [if_neg hm]

/-- Witness for C6 at a concrete malicious, high-confidence prediction. -/
theorem c6_risk_tier_mapping_witness :
    (generate_assessment
      ⟨none, none, none, none, none, none, none, none⟩ ⟨none, none⟩
      ⟨"malicious", 9 / 10, some 1, "random_forest", [], none⟩).risk_level = "HIGH" :=
  ((c6_risk_tier_mapping _ _ _).1 rfl).1 (by norm_num)

/-- C10: every prediction whose label is not `malicious` — in particular the
`unknown` label that `_make_prediction` produces on internal failure — is
assigned the SAFE risk tier by `_generate_assessment`. -/
theorem c10_non_malicious_is_safe (s : StaticAnalysis) (d : DynamicAnalysis)
    (p : PredictionResult) (h : p.prediction ≠ "malicious") :
    (generate_assessment s d p).risk_level = "SAFE" :=
  (c6_risk_tier_mapping s d p).2 h

/-- Witness for C10 at the concrete failure verdict of `_make_prediction`. -/
theorem c10_non_malicious_is_safe_witness :
    (generate_assessment
      ⟨none, none, none, none, none, none, none, none⟩ ⟨none, none⟩
      prediction_failure).risk_level = "SAFE" :=
  c10_non_malicious_is_safe _ _ _ (by decide)

/-- C7: `_make_prediction` is total (the embedding returns a result dictionary
on every input), and whenever one of the guarded steps — feature
scaling/selection, model lookup, `predict` — fails, it returns the degraded
verdict with label `unknown` and confidence `0`. -/
theorem c7_inference_failure_degrades (fe : FeatureEngineerState)
    (mp : MLPredictorState) (features : Features)
    (h : make_prediction_steps fe mp features = none) :
    make_prediction fe mp features = prediction_failure ∧
    (make_prediction fe mp features).prediction = "unknown" ∧
    (make_prediction fe mp features).confidence = 0 := by
  simp [make_prediction, h, prediction_failure]

/-- Witness for C7: a freshly initialized engine (unfitted scaler) fails the
scaling step and degrades to the unknown verdict. -/
theorem c7_inference_failure_degrades_witness :
    make_prediction featureEngineerInit mlPredictorInit [("entropy", 5)] =
      prediction_failure :=
  (c7_inference_failure_degrades featureEngineerInit mlPredictorInit
    [("entropy", 5)] rfl).1

/-- C9: the behavior score of `_calculate_behavior_score` is an integer
between 0 and 100 for every behavior record. -/
theorem c9_behavior_score_bounds (behavior : Behavior) :
    0 ≤ calculate_behavior_score behavior ∧ calculate_behavior_score behavior ≤ 100 := by
  unfold calculate_behavior_score
  refine ⟨le_min ?_ (by norm_num), min_le_right _ _⟩
  have hsum : ∀ (l : List ℤ), (∀ x ∈ l, 0 ≤ x) → 0 ≤ l.sum := fun l h => List.sum_nonneg h
  refine add_nonneg (add_nonneg (add_nonneg ?_ ?_) ?_) ?_
  · cases behavior.network_activity with
    | none => simp
    | some net =>
      refine add_nonneg (add_nonneg (by positivity) (by positivity)) ?_
      refine hsum _ ?_
      intro x hx
      simp only [List.mem_map] at hx
      obtain ⟨req, -, rfl⟩ := hx
      split <;> norm_num
  · cases behavior.registry_changes with
    | none => simp
    | some reg =>
      refine add_nonneg (add_nonneg (by positivity) (by positivity)) ?_
      refine hsum _ ?_
      intro x hx
      simp only [List.mem_map] at hx
      obtain ⟨key, -, rfl⟩ := hx
      split <;> norm_num
  · cases behavior.file_operations with
    | none => simp
    | some files => positivity
  · cases behavior.process_creation with
    | none => simp
    | some procs =>
      refine hsum _ ?_
      intro x hx
      simp only [List.mem_map] at hx
      obtain ⟨proc, -, rfl⟩ := hx
      refine add_nonneg ?_ ?_ <;> (split <;> norm_num)

/-- The static feature keys produced by `_extract_static_features` are exactly
those of the present sections. -/
lemma extract_static_features_keys (s : StaticAnalysis) :
    (extract_static_features s).map Prod.fst = static_feature_keys s := by
  obtain ⟨fi, st, en, pe, im, md, si, an⟩ := s
  cases fi <;> cases pe <;> cases im <;> cases st <;> cases si <;> rfl

/-- The dynamic feature keys produced by `_extract_dynamic_features` are
exactly those of the present sections. -/
lemma extract_dynamic_features_keys (d : DynamicAnalysis) :
    (extract_dynamic_features d).map Prod.fst = dynamic_feature_keys (some d) := by
  obtain ⟨bs, beh⟩ := d
  cases bs <;> cases beh with
  | none => rfl
  | some b =>
    obtain ⟨n, r, f, pc⟩ := b
    cases n <;> cases r <;> cases f <;> cases pc <;> rfl

/-- C1 (amended): the feature mapping of `extract_features` contains exactly
the fields of the sections present in the two inputs, in insertion order —
fields of absent sections are omitted from the mapping rather than defaulted
to 0, so the key set varies with the inputs. -/
theorem c1_feature_keys_by_presence (static_analysis : StaticAnalysis)
    (dynamic_analysis : Option DynamicAnalysis) :
    (extract_features static_analysis dynamic_analysis).map Prod.fst =
      static_feature_keys static_analysis ++ dynamic_feature_keys dynamic_analysis := by
  unfold extract_features
  rw [List.map_append, extract_static_features_keys]
  cases dynamic_analysis with
  | none => rfl
  | some d => rw [extract_dynamic_features_keys]

/-- C1 counterexample: with the same static result, the feature mapping has
different key sets depending on the dynamic result (so there is no fixed
schema), and a schema field not derivable from the available data
(`behavior_score`) is missing from the mapping rather than present with
value 0. -/
theorem c1_counterexample :
    ((extract_features ⟨none, none, none, none, none, none, none, none⟩
        (some ⟨some 10, none⟩)).map Prod.fst ≠
      (extract_features ⟨none, none, none, none, none, none, none, none⟩
        none).map Prod.fst) ∧
    (extract_features ⟨none, none, none, none, none, none, none, none⟩
        none).lookup "behavior_score" = none := by
  constructor
  · decide
  · rfl

/-- The concrete behavior record of the C5 counterexample: one created
registry key matching the autorun marker `Run`. -/
def c5Behavior : Behavior :=
  { network_activity := none
    registry_changes :=
      some { keys_created :=
               some ["HKEY_LOCAL_MACHINE\\Software\\Microsoft\\Windows\\CurrentVersion\\Run\\MyApp"]
             values_set := none
             keys_deleted := none }
    file_operations := none
    process_creation := none }

/-- The dynamic-analysis dictionary of the C5 counterexample, carrying the
behavior score the pipeline computes for `c5Behavior`. -/
def c5Dynamic : DynamicAnalysis := { behavior_score := some 16, behavior := some c5Behavior }

/-- The prediction of the C5 counterexample: malicious at confidence 0.3,
which the verdict alone places at LOW. -/
def c5Pred : PredictionResult :=
  { prediction := "malicious", confidence := 3 / 10, prediction_score := some 1
    model_used := "random_forest", top_features := [], error := none }

/-- C5 counterexample: for an analysis whose behavior report creates an
autorun (`Run`) registry key — scored 16 by `_calculate_behavior_score`,
matching the stored `behavior_score` — the assembled assessment contains no
persistence indicator (its indicator list is empty) and the risk tier stays
LOW as dictated by verdict and confidence alone, not at least MEDIUM. -/
theorem c5_counterexample :
    calculate_behavior_score c5Behavior = 16 ∧
    (generate_assessment ⟨none, none, none, none, none, none, none, none⟩
        c5Dynamic c5Pred).risk_level = "LOW" ∧
    (generate_assessment ⟨none, none, none, none, none, none, none, none⟩
        c5Dynamic c5Pred).key_indicators = [] := by
  refine ⟨by decide, ?_, ?_⟩
  · rw [generate_assessment_risk_level]
    norm_num [c5Pred]
  · simp only [generate_assessment, c5Dynamic, c5Pred]
    norm_num

/-- Membership in a conditional singleton forces the element. -/
lemma mem_ite_singleton {α : Type} {c : Prop} [Decidable c] {x ind : α}
    (h : ind ∈ if c then [x] else ([] : List α)) : ind = x := by
  split at h
  · simpa using h
  · simp at h

/-- C5 (amended): a created registry key matching the autorun marker
influences only the behavior score; the risk tier that `_generate_assessment`
derives depends only on the prediction result (it is not raised by behavior
data), and every indicator it emits is one of the five non-persistence
indicator forms — no persistence indicator exists. -/
theorem c5_no_persistence_indicator (s s2 : StaticAnalysis) (d d2 : DynamicAnalysis)
    (p : PredictionResult) :
    (generate_assessment s d p).risk_level = (generate_assessment s2 d2 p).risk_level ∧
    ∀ ind ∈ (generate_assessment s d p).key_indicators,
      ind ∈ assessment_indicator_forms s d := by
  constructor
  · rw [generate_assessment_risk_level, generate_assessment_risk_level]
  · intro ind hind
    simp only [generate_assessment, List.mem_append] at hind
    obtain (hstat | hdyn) | hstr := hind
    · cases hsi : s.suspicious_indicators with
      | none => simp [hsi] at hstat
      | some si =>
        simp only [hsi, List.mem_append] at hstat
        obtain (hpk | hhe) | him := hstat
        · rw [mem_ite_singleton hpk]
          simp [assessment_indicator_forms]
        · rw [mem_ite_singleton hhe]
          simp [assessment_indicator_forms]
        · rw [mem_ite_singleton him]
          simp [assessment_indicator_forms, hsi]
    · cases hbs : d.behavior_score with
      | none => simp [hbs] at hdyn
      | some score =>
        simp only [hbs] at hdyn
        rw [mem_ite_singleton hdyn]
        simp [assessment_indicator_forms, hbs]
    · cases hst : s.strings with
      | none => simp [hst] at hstr
      | some strings_info =>
        simp only [hst] at hstr
        rw [mem_ite_singleton hstr]
        simp [assessment_indicator_forms, hst]

/-- Witness for C5 (amended) at a packed sample: the emitted indicator is
among the allowed non-persistence forms. -/
theorem c5_no_persistence_indicator_witness :
    "File appears to be packed" ∈
      assessment_indicator_forms
        ⟨none, none, none, none, none, none,
          some ⟨some true, none, none, none, none, none, none, none⟩, none⟩
        ⟨none, none⟩ :=
  (c5_no_persistence_indicator
    ⟨none, none, none, none, none, none,
      some ⟨some true, none, none, none, none, none, none, none⟩, none⟩
    ⟨none, none, none, none, none, none, none, none⟩
    ⟨none, none⟩ ⟨none, none⟩
    ⟨"benign", 0, none, "x", [], none⟩).2
    "File appears to be packed" (by decide)

/-- The concrete fitted model of the C4 analysis: predicts class 1 with
probability row `[0, 1]`. -/
def c4Model : Model :=
  { mtype := "RandomForestClassifier"
    predict := fun _ => some 1
    predict_proba := some (fun _ => some [0, 1])
    feature_importances := none }

/-- A trained predictor state owning `c4Model`. -/
def c4Predictor : MLPredictorState :=
  { best_model := some c4Model, best_model_name := some "random_forest" }

/-- A feature-engineering state whose scaler has been fitted (mean 0,
scale 1 for the single feature). -/
def c4FittedFE : FeatureEngineerState :=
  { scaler := some [(0, 1)], selected_features := none }

/-- The fixed held-out feature vector of the C4 analysis. -/
def c4Vec : Features := [("entropy", 5)]

/-- C4 counterexample: the bundle persisted by `save_best_model` consists of
the model, its name and its type only — the fitted scaler and selection mask
are not part of it — and reloading that bundle into a fresh process (whose
`FeatureEngineer` starts unfitted) does not reproduce the inference output of
the trained system on the fixed held-out vector. -/
theorem c4_counterexample :
    save_best_model c4Predictor =
      some ⟨c4Model, some "random_forest", "RandomForestClassifier"⟩ ∧
    make_prediction featureEngineerInit
        (load_model mlPredictorInit
          ⟨c4Model, some "random_forest", "RandomForestClassifier"⟩) c4Vec ≠
      make_prediction c4FittedFE c4Predictor c4Vec := by
  refine ⟨rfl, fun h => ?_⟩
  have hp : ("unknown" : String) = "malicious" :=
    congrArg PredictionResult.prediction h
  exact absurd hp (by decide)

/-- C4 (amended): `save_best_model` followed by `load_model` restores the
winning model and its name — the artifact does not carry the fitted scaler or
selection mask — so inference is unchanged by the round trip whenever the
same (still-fitted) feature-engineering state is used. -/
theorem c4_roundtrip_restores_model (fe : FeatureEngineerState)
    (p q : MLPredictorState) (a : ModelArtifact)
    (h : save_best_model p = some a) (v : Features) :
    (load_model q a).best_model = p.best_model ∧
    (load_model q a).best_model_name = p.best_model_name ∧
    make_prediction fe (load_model q a) v = make_prediction fe p v := by
  obtain ⟨bm, bn⟩ := p
  cases bm with
  | none => exact absurd h (by simp [save_best_model])
  | some m =>
    obtain rfl : a = ⟨m, bn, m.mtype⟩ := by
      simpa [save_best_model, eq_comm] using h
    exact ⟨rfl, rfl, rfl⟩

/-- Witness for C4 (amended): the concrete trained system round-trips to
identical inference within the same process. -/
theorem c4_roundtrip_restores_model_witness :
    make_prediction c4FittedFE
        (load_model mlPredictorInit
          ⟨c4Model, some "random_forest", "RandomForestClassifier"⟩) c4Vec =
      make_prediction c4FittedFE c4Predictor c4Vec :=
  (c4_roundtrip_restores_model c4FittedFE c4Predictor mlPredictorInit
    ⟨c4Model, some "random_forest", "RandomForestClassifier"⟩ rfl c4Vec).2.2

/-- C2: on every readable, non-empty input whose bytes the container parser
rejects (any non-`ok` outcome), `analyze_file` returns a degraded analysis
dictionary — still carrying file identity/hashes, entropy, strings and the
basic suspicious indicators — whose reason string `analysis_note` is present
and non-empty; it never returns the error dictionary (and the embedding is
total, so no exception escapes). -/
theorem c2_degraded_on_parse_failure (env : ExtEnv) (filename : String)
    (data : List Byte) (hne : data ≠ [])
    (hfail : ∀ pe, env.peParse data ≠ .ok pe) :
    ∃ r, analyze_file env filename data true = .result r ∧
      (∃ m, r.analysis_note = some m ∧ m ≠ "") ∧
      r.file_info = some (get_file_info env filename data) ∧
      r.entropy = some (env.entropyF data) ∧
      r.strings = some (extract_strings data) ∧
      r.suspicious_indicators =
        some (check_basic_suspicious_indicators filename data (extract_strings data)
          (env.entropyF data)) := by
  have hlen : ¬data.length = 0 := by
    simpa [List.length_eq_zero] using hne
  cases hp : env.peParse data with
  | ok pe => exact absurd hp (hfail pe)
  | formatError =>
    have heq : analyze_file env filename data true = .result
        { file_info := some (get_file_info env filename data)
          strings := some (extract_strings data)
          entropy := some (env.entropyF data)
          pe_headers := some emptyPEHeaders
          imports := some []
          metadata := some []
          suspicious_indicators :=
            some (check_basic_suspicious_indicators filename data (extract_strings data)
              (env.entropyF data))
          analysis_note := some "الملف ليس من نوع PE (Windows Executable)" } := by
      simp [analyze_file, hlen, hp]
    exact ⟨_, heq, ⟨_, rfl, by decide⟩, rfl, rfl, rfl, rfl⟩
  | otherError msg =>
    have heq : analyze_file env filename data true = .result
        { file_info := some (get_file_info env filename data)
          strings := some (extract_strings data)
          entropy := some (env.entropyF data)
          pe_headers := some emptyPEHeaders
          imports := some []
          metadata := some []
          suspicious_indicators :=
            some (check_basic_suspicious_indicators filename data (extract_strings data)
              (env.entropyF data))
          analysis_note :=
            some (if s!"خطأ في قراءة الملف: {msg}" = "" then "تم إجراء تحليل أساسي فقط"
                  else s!"خطأ في قراءة الملف: {msg}") } := by
      simp [analyze_file, hlen, hp]
    refine ⟨_, heq, ⟨_, rfl, ?_⟩, rfl, rfl, rfl, rfl⟩
    split
    · decide
    · assumption

/-- Witness for C2 on a concrete one-byte non-container file. -/
theorem c2_degraded_on_parse_failure_witness :
    ∃ r, analyze_file
        ⟨fun _ => .formatError, fun _ => "", fun _ => "", fun _ => "", fun _ => 0⟩
        "sample.bin" [0] true = .result r ∧
      (∃ m, r.analysis_note = some m ∧ m ≠ "") ∧
      r.file_info = some (get_file_info
        ⟨fun _ => .formatError, fun _ => "", fun _ => "", fun _ => "", fun _ => 0⟩
        "sample.bin" [0]) ∧
      r.entropy = some 0 ∧
      r.strings = some (extract_strings [0]) ∧
      r.suspicious_indicators =
        some (check_basic_suspicious_indicators "sample.bin" [0] (extract_strings [0]) 0) :=
  c2_degraded_on_parse_failure
    ⟨fun _ => .formatError, fun _ => "", fun _ => "", fun _ => "", fun _ => 0⟩
    "sample.bin" [0] (by decide) (fun pe h => by cases h)

/-- A list containing two distinct elements has length at least two. -/
lemma length_ge_two_of_two_mem {l : List String} {a b : String}
    (ha : a ∈ l) (hb : b ∈ l) (hab : a ≠ b) : 2 ≤ l.length := by
  have hsub : ({a, b} : Finset String) ⊆ l.toFinset := by
    intro x hx
    rcases Finset.mem_insert.mp hx with rfl | hx
    · exact List.mem_toFinset.mpr ha
    · rw [Finset.mem_singleton.mp hx]
      exact List.mem_toFinset.mpr hb
  calc (2 : ℕ) = ({a, b} : Finset String).card := (Finset.card_pair hab).symm
    _ ≤ l.toFinset.card := Finset.card_le_card hsub
    _ ≤ l.length := l.toFinset_card_le

/-- A named import matching a suspicious API substring lands in the result of
`_check_suspicious_imports`. -/
lemma mem_check_suspicious_imports {pe : PEFile}
    {entries : List (String × List (Option String))}
    (he : pe.dll_imports = some entries) {e : String × List (Option String)}
    (hee : e ∈ entries) {name : String} (hn : some name ∈ e.2)
    (hpred : suspicious_apis.any (fun sus => strContains name sus) = true) :
    name ∈ check_suspicious_imports pe := by
  unfold check_suspicious_imports
  rw [he]
  exact List.mem_flatMap.mpr
    ⟨e, hee, List.mem_filter.mpr ⟨List.mem_filterMap.mpr ⟨some name, hn, rfl⟩, hpred⟩⟩

/-- C8: for every parseable container whose import table names both
`CreateRemoteThread` and `WriteProcessMemory`, the extracted suspicious
imports list has length at least 2, and the assembled report's indicator list
contains the suspicious-API-imports indicator carrying that count. -/
theorem c8_suspicious_imports_detected (env : ExtEnv) (filename : String)
    (data : List Byte) (pe : PEFile)
    (entries : List (String × List (Option String)))
    (hne : data ≠ []) (hparse : env.peParse data = .ok pe)
    (hdll : pe.dll_imports = some entries)
    (h1 : ∃ e ∈ entries, some "CreateRemoteThread" ∈ e.2)
    (h2 : ∃ e ∈ entries, some "WriteProcessMemory" ∈ e.2)
    (d : DynamicAnalysis) (p : PredictionResult) :
    2 ≤ (check_suspicious_imports pe).length ∧
    ∃ r, analyze_file env filename data true = .result r ∧
      s!"Suspicious API imports: {(check_suspicious_imports pe).length}" ∈
        (generate_assessment r d p).key_indicators := by
  obtain ⟨e1, he1, hm1⟩ := h1
  obtain ⟨e2, he2, hm2⟩ := h2
  have mem1 : "CreateRemoteThread" ∈ check_suspicious_imports pe :=
    mem_check_suspicious_imports hdll he1 hm1 (by decide)
  have mem2 : "WriteProcessMemory" ∈ check_suspicious_imports pe :=
    mem_check_suspicious_imports hdll he2 hm2 (by decide)
  have hlen2 : 2 ≤ (check_suspicious_imports pe).length :=
    length_ge_two_of_two_mem mem1 mem2 (by decide)
  have hlen : ¬data.length = 0 := by simpa [List.length_eq_zero] using hne
  have heq : analyze_file env filename data true = .result
      { file_info := some (get_file_info env filename data)
        strings := some (extract_strings data)
        entropy := some (env.entropyF data)
        pe_headers := some (extract_pe_headers pe)
        imports := some (extract_imports pe)
        metadata := some (extract_metadata pe)
        suspicious_indicators := some (check_suspicious_indicators env pe data)
        analysis_note := none } := by
    simp [analyze_file, hlen, hparse]
  have hnonempty : check_suspicious_imports pe ≠ [] := by
    intro h0
    rw [h0] at hlen2
    simp at hlen2
  refine ⟨hlen2, _, heq, ?_⟩
  simp [generate_assessment, check_suspicious_indicators, hnonempty]

/-- The concrete parsed container of the C8 witness. -/
def c8PE : PEFile :=
  { machine := 0, time_date_stamp := 0, number_of_sections := 1
    size_of_optional_header := 0, characteristics := 0
    address_of_entry_point := 0, image_base := 0, section_alignment := 0
    file_alignment := 0, subsystem := 0, sections := [".text"]
    dll_imports :=
      some [("kernel32.dll", [some "CreateRemoteThread", some "WriteProcessMemory"])]
    version_info := none }

/-- The external environment of the C8 witness: the parser accepts the file
as `c8PE`. -/
def c8Env : ExtEnv :=
  { peParse := fun _ => .ok c8PE, md5 := fun _ => "", sha1 := fun _ => ""
    sha256 := fun _ => "", entropyF := fun _ => 0 }

/-- Witness for C8 at the concrete container importing both APIs. -/
theorem c8_suspicious_imports_detected_witness :
    2 ≤ (check_suspicious_imports c8PE).length ∧
    ∃ r, analyze_file c8Env "sample.exe" [77] true = .result r ∧
      s!"Suspicious API imports: {(check_suspicious_imports c8PE).length}" ∈
        (generate_assessment r ⟨none, none⟩
          ⟨"benign", 0, none, "m", [], none⟩).key_indicators :=
  c8_suspicious_imports_detected c8Env "sample.exe" [77] c8PE
    [("kernel32.dll", [some "CreateRemoteThread", some "WriteProcessMemory"])]
    (by decide) rfl rfl
    ⟨("kernel32.dll", [some "CreateRemoteThread", some "WriteProcessMemory"]),
      by decide, by decide⟩
    ⟨("kernel32.dll", [some "CreateRemoteThread", some "WriteProcessMemory"]),
      by decide, by decide⟩
    ⟨none, none⟩ ⟨"benign", 0, none, "m", [], none⟩

/-- The byte-count histogram over the distinct bytes present sums to the
buffer length. -/
lemma count_sum_eq_length (data : List Byte) :
    ∑ b ∈ data.toFinset, data.count b = data.length := by
  simp [Multiset.toFinset_sum_count_eq (data : Multiset Byte)]

/-- Bounds of the Shannon entropy of `_calculate_entropy`: nonnegative and at
most `log2 256 = 8` (by the Gibbs inequality against the uniform
distribution on the distinct bytes present). -/
lemma calculate_entropy_bounds (data : List Byte) (hne : data ≠ []) :
    0 ≤ calculate_entropy data ∧ calculate_entropy data ≤ 8 := by
  have hn0 : data.length ≠ 0 := by simpa [List.length_eq_zero] using hne
  have hn : (0 : ℝ) < (data.length : ℝ) := by
    exact_mod_cast Nat.pos_of_ne_zero hn0
  rw [calculate_entropy, if_neg hn0]
  have hppos : ∀ b ∈ data.toFinset, (0 : ℝ) < (data.count b : ℝ) / (data.length : ℝ) := by
    intro b hb
    have hc : 0 < data.count b := List.count_pos_iff.mpr (List.mem_toFinset.mp hb)
    exact div_pos (by exact_mod_cast hc) hn
  have hple : ∀ b ∈ data.toFinset, (data.count b : ℝ) / (data.length : ℝ) ≤ 1 := by
    intro b _
    rw [div_le_one hn]
    exact_mod_cast List.count_le_length b data
  constructor
  · apply Finset.sum_nonneg
    intro b hb
    have hlog : Real.logb 2 ((data.count b : ℝ) / (data.length : ℝ)) ≤ 0 :=
      Real.logb_nonpos (by norm_num) (hppos b hb).le (hple b hb)
    have := mul_nonneg (hppos b hb).le (neg_nonneg.mpr hlog)
    rw [mul_neg] at this
    exact this
  · -- Gibbs inequality
    have hsne : data.toFinset.Nonempty := by
      obtain ⟨x, hx⟩ := List.exists_mem_of_ne_nil data hne
      exact ⟨x, List.mem_toFinset.mpr hx⟩
    have hkpos : (0 : ℝ) < (data.toFinset.card : ℝ) := by
      exact_mod_cast Finset.card_pos.mpr hsne
    have hsum1 : ∑ b ∈ data.toFinset, (data.count b : ℝ) / (data.length : ℝ) = 1 := by
      rw [← Finset.sum_div, div_eq_one_iff_eq hn.ne']
      exact_mod_cast count_sum_eq_length data
    have key : ∀ b ∈ data.toFinset,
        ((data.count b : ℝ) / (data.length : ℝ)) *
            Real.log (1 / ((data.toFinset.card : ℝ) *
              ((data.count b : ℝ) / (data.length : ℝ))))
          ≤ 1 / (data.toFinset.card : ℝ) - (data.count b : ℝ) / (data.length : ℝ) := by
      intro b hb
      have hp := hppos b hb
      have hx : (0 : ℝ) < 1 / ((data.toFinset.card : ℝ) *
          ((data.count b : ℝ) / (data.length : ℝ))) := by positivity
      have hlog := Real.log_le_sub_one_of_pos hx
      have hmul := mul_le_mul_of_nonneg_left hlog hp.le
      refine hmul.trans (le_of_eq ?_)
      have hc0 : ((data.count b : ℝ)) ≠ 0 := by
        have hc : 0 < data.count b := List.count_pos_iff.mpr (List.mem_toFinset.mp hb)
        exact_mod_cast hc.ne'
      have hk0 : ((data.toFinset.card : ℝ)) ≠ 0 := ne_of_gt hkpos
      have hn' : ((data.length : ℝ)) ≠ 0 := hn.ne'
      field_simp
      ring
    have hsumkey := Finset.sum_le_sum key
    have hLHS : ∑ b ∈ data.toFinset,
        ((data.count b : ℝ) / (data.length : ℝ)) *
          Real.log (1 / ((data.toFinset.card : ℝ) *
            ((data.count b : ℝ) / (data.length : ℝ))))
        = -Real.log (data.toFinset.card : ℝ) *
            (∑ b ∈ data.toFinset, (data.count b : ℝ) / (data.length : ℝ))
          + ∑ b ∈ data.toFinset,
              -(((data.count b : ℝ) / (data.length : ℝ)) *
                Real.log ((data.count b : ℝ) / (data.length : ℝ))) := by
      rw [Finset.mul_sum, ← Finset.sum_add_distrib]
      apply Finset.sum_congr rfl
      intro b hb
      rw [one_div, Real.log_inv,
        Real.log_mul (ne_of_gt hkpos) (ne_of_gt (hppos b hb))]
      ring
    have hRHS : ∑ b ∈ data.toFinset,
        (1 / (data.toFinset.card : ℝ) - (data.count b : ℝ) / (data.length : ℝ)) = 0 := by
      rw [Finset.sum_sub_distrib, hsum1, Finset.sum_const, nsmul_eq_mul]
      field_simp
    rw [hLHS, hsum1, hRHS] at hsumkey
    have gibbs : ∑ b ∈ data.toFinset,
        -(((data.count b : ℝ) / (data.length : ℝ)) *
          Real.log ((data.count b : ℝ) / (data.length : ℝ)))
        ≤ Real.log (data.toFinset.card : ℝ) := by linarith
    have hlog2 : (0 : ℝ) < Real.log 2 := Real.log_pos (by norm_num)
    have hconv : ∑ b ∈ data.toFinset,
        -(((data.count b : ℝ) / (data.length : ℝ)) *
          Real.logb 2 ((data.count b : ℝ) / (data.length : ℝ)))
        = (∑ b ∈ data.toFinset,
            -(((data.count b : ℝ) / (data.length : ℝ)) *
              Real.log ((data.count b : ℝ) / (data.length : ℝ)))) / Real.log 2 := by
      rw [Finset.sum_div]
      apply Finset.sum_congr rfl
      intro b _
      rw [Real.logb]
      ring
    have hcard256 : (data.toFinset.card : ℝ) ≤ 256 := by
      have h1 : data.toFinset.card ≤ Fintype.card Byte := Finset.card_le_univ _
      have h2 : Fintype.card Byte = 256 := Fintype.card_fin 256
      exact_mod_cast h2 ▸ h1
    have hstep : Real.log (data.toFinset.card : ℝ) ≤ Real.log 256 :=
      Real.log_le_log hkpos hcard256
    have hlog256 : Real.log 256 = 8 * Real.log 2 := by
      rw [show (256 : ℝ) = 2 ^ (8 : ℕ) by norm_num, Real.log_pow]
      norm_num
    rw [hconv]
    calc (∑ b ∈ data.toFinset,
          -(((data.count b : ℝ) / (data.length : ℝ)) *
            Real.log ((data.count b : ℝ) / (data.length : ℝ)))) / Real.log 2
        ≤ Real.log (data.toFinset.card : ℝ) / Real.log 2 :=
          (div_le_div_iff_of_pos_right hlog2).mpr gibbs
      _ ≤ Real.log 256 / Real.log 2 := (div_le_div_iff_of_pos_right hlog2).mpr hstep
      _ = 8 := by rw [hlog256]; field_simp

/-- A buffer of one repeated byte value has entropy 0. -/
lemma calculate_entropy_const (data : List Byte) (c : Byte) (hne : data ≠ [])
    (hall : ∀ b ∈ data, b = c) : calculate_entropy data = 0 := by
  have hn0 : data.length ≠ 0 := by simpa [List.length_eq_zero] using hne
  have hcmem : c ∈ data := by
    obtain ⟨x, hx⟩ := List.exists_mem_of_ne_nil data hne
    exact hall x hx ▸ hx
  have hfin : data.toFinset = {c} := by
    apply Finset.Subset.antisymm
    · intro b hb
      rw [Finset.mem_singleton]
      exact hall b (List.mem_toFinset.mp hb)
    · intro b hb
      rw [Finset.mem_singleton] at hb
      subst hb
      exact List.mem_toFinset.mpr hcmem
  have hcount : data.count c = data.length := by
    rw [List.count_eq_length]
    intro b hb
    exact (hall b hb).symm
  rw [calculate_entropy, if_neg hn0, hfin, Finset.sum_singleton, hcount,
    div_self (by exact_mod_cast hn0 : ((data.length : ℝ) ≠ 0))]
  simp

/-- A buffer whose 256 byte values all occur equally often has entropy
exactly 8. -/
lemma calculate_entropy_uniform (data : List Byte) (m : ℕ) (hm : 0 < m)
    (hcount : ∀ b : Byte, data.count b = m) : calculate_entropy data = 8 := by
  have huniv : data.toFinset = Finset.univ := by
    apply Finset.eq_univ_of_forall
    intro b
    rw [List.mem_toFinset]
    exact List.count_pos_iff.mp (by rw [hcount b]; exact hm)
  have hlen : data.length = 256 * m := by
    have h := count_sum_eq_length data
    rw [huniv, Finset.sum_congr rfl (fun b _ => hcount b), Finset.sum_const,
      smul_eq_mul, Finset.card_univ, Fintype.card_fin] at h
    exact h.symm
  have hn0 : data.length ≠ 0 := by
    rw [hlen]
    omega
  have hm' : ((m : ℝ)) ≠ 0 := by exact_mod_cast hm.ne'
  have hp : ∀ b : Byte, (data.count b : ℝ) / (data.length : ℝ) = 1 / 256 := by
    intro b
    rw [hcount b, hlen]
    push_cast
    field_simp
    ring
  rw [calculate_entropy, if_neg hn0, huniv,
    Finset.sum_congr rfl (fun b _ => by rw [hp b])]
  have hlogv : Real.logb 2 ((1 : ℝ) / 256) = -8 := by
    rw [one_div, Real.logb_inv, show (256 : ℝ) = 2 ^ (8 : ℕ) by norm_num,
      Real.logb_pow, Real.logb_self_eq_one (by norm_num)]
    norm_num
  rw [Finset.sum_const, hlogv, Finset.card_univ, Fintype.card_fin, nsmul_eq_mul]
  norm_num

/-- C3: for every non-empty byte buffer the entropy of `_calculate_entropy`
lies in `[0, 8]`; a buffer of a single repeated byte value has entropy 0; and
a buffer in which all 256 byte values occur equally often has entropy within
0.01 of 8 (it is exactly 8). -/
theorem c3_entropy_range_and_extremes :
    (∀ data : List Byte, data ≠ [] →
      0 ≤ calculate_entropy data ∧ calculate_entropy data ≤ 8) ∧
    (∀ (data : List Byte) (c : Byte), data ≠ [] → (∀ b ∈ data, b = c) →
      calculate_entropy data = 0) ∧
    (∀ (data : List Byte) (m : ℕ), 0 < m → (∀ b : Byte, data.count b = m) →
      |calculate_entropy data - 8| ≤ 1 / 100) :=
  ⟨calculate_entropy_bounds, calculate_entropy_const,
   fun data m hm hc => by
    rw [calculate_entropy_uniform data m hm hc]
    norm_num⟩

set_option maxRecDepth 4096 in
/-- Witness for C3 at three concrete buffers: a one-byte buffer, a constant
buffer, and the buffer listing each of the 256 byte values once. -/
theorem c3_entropy_range_and_extremes_witness :
    (0 ≤ calculate_entropy [0] ∧ calculate_entropy [0] ≤ 8) ∧
    calculate_entropy [5, 5, 5] = 0 ∧
    |calculate_entropy (List.finRange 256) - 8| ≤ 1 / 100 :=
  ⟨c3_entropy_range_and_extremes.1 [0] (by decide),
   c3_entropy_range_and_extremes.2.1 [5, 5, 5] 5 (by decide) (by decide),
   c3_entropy_range_and_extremes.2.2 (List.finRange 256) 1 one_pos
    (fun b => List.count_eq_one_of_mem (List.nodup_finRange 256) (List.mem_finRange b))⟩
